import Mathlib

/-!
Verification development for the alchemux media pipeline.

Shallow embedding of the code under backend/app: the destination and format
resolvers and the per-format loop of cli/commands/distill.py, the
download/fallback logic of core/downloader.py, the batch loop of
cli/commands/batch.py, and ConfigManager.get_storage_destination of
core/config_manager.py.  External collaborators (yt-dlp, the filesystem, the
uploaders) are modelled as oracle parameters; Python strings are modelled as
Lean strings with executable helpers mirroring the Python primitives used.
-/

namespace Alchemux

/-! ## Python string primitives -/

/-- Check that the first character list is an initial segment of the second. -/
def leadsWith : List Char → List Char → Bool
  | [], _ => true
  | _ :: _, [] => false
  | a :: as, b :: bs => a == b && leadsWith as bs

/-- Check that the first character list occurs contiguously inside the second. -/
def occursIn (needle : List Char) : List Char → Bool
  | [] => needle.isEmpty
  | c :: rest => leadsWith needle (c :: rest) || occursIn needle rest

/-- Python substring test: the expression sub in s on str values. -/
def pyIn (sub s : String) : Bool := occursIn sub.toList s.toList

/-- Python str.lower for the ASCII strings handled by the program. -/
def pyLower (s : String) : String := String.mk (s.toList.map Char.toLower)

/-- Fuel-indexed worker for pyReplace; fuel bounds the number of scan steps. -/
def pyReplaceAux (pat rep : List Char) : Nat → List Char → List Char
  | _, [] => []
  | 0, hay => hay
  | Nat.succ n, c :: rest =>
    if !pat.isEmpty && leadsWith pat (c :: rest) then
      rep ++ pyReplaceAux pat rep n (List.drop (pat.length - 1) rest)
    else
      c :: pyReplaceAux pat rep n rest

/-- Python str.replace: replace every non-overlapping occurrence, left to right. -/
def pyReplace (s pat rep : String) : String :=
  String.mk (pyReplaceAux pat.toList rep.toList s.toList.length s.toList)

/-- Whitespace characters stripped by Python str.strip(). -/
def isSpaceChar (c : Char) : Bool :=
  c == ' ' || c == '\t' || c == '\n' || c == '\r' || c == '\x0b' || c == '\x0c'

/-- Python str.strip(): drop whitespace from both ends. -/
def pyStrip (s : String) : String :=
  String.mk (((s.toList.dropWhile isSpaceChar).reverse.dropWhile isSpaceChar).reverse)

/-- Python slicing s[:n]: the first n characters. -/
def pyTake (s : String) (n : Nat) : String := String.mk (s.toList.take n)

/-- Python truthiness of an optional string: None and the empty string are falsy. -/
def pyTruthy : Option String → Bool
  | none => false
  | some s => !(s == "")

/-! ## Cause normalization (distill._normalize_fracture_cause) -/

/-- Embedding of distill._normalize_fracture_cause (distill.py lines 33-57):
maps raw error text to a display cause by substring matching. -/
def normalize_fracture_cause (msg : Option String) : String :=
  match msg with
  | none => "unknown"
  | some s =>
    if s == "" then "unknown"
    else
      let m := pyLower s
      if pyIn "403" m || pyIn "forbidden" m then
        if pyIn "video data" m || pyIn "unable to download" m then
          "CDN blocked (HTTP 403) - try from residential IP"
        else "HTTP 403 Forbidden"
      else if pyIn "429" m || pyIn "too many requests" m then
        "rate limited (HTTP 429)"
      else if pyIn "network" m || pyIn "connection" m || pyIn "timeout" m || pyIn "unreachable" m then
        "network error"
      else if pyIn "not found" m || pyIn "404" m then
        "not found (HTTP 404)"
      else if pyIn "download failed" m then
        let rest := pyStrip (pyReplace (pyReplace m "download failed:" "") "download failed" "")
        if pyIn "403" rest || pyIn "forbidden" rest then "HTTP 403 Forbidden"
        else if !(rest == "") then pyTake rest 80
        else "download failed"
      else "unknown"

/-- The closed set of display causes named by the specification: unknown,
the two provider-blocked strings, rate-limited, network error, not-found,
and the generic failure string. -/
def closedCauses : List String :=
  ["unknown", "CDN blocked (HTTP 403) - try from residential IP", "HTTP 403 Forbidden",
   "rate limited (HTTP 429)", "network error", "not found (HTTP 404)", "download failed"]

/-! ## Storage destination (ConfigManager.get_storage_destination) -/

/-- Embedding of a single ConfigManager.get call: the persisted raw value
(none when the key is absent from config.toml and the environment) or the
supplied default. -/
def configGet (raw : Option String) (dflt : String) : String := raw.getD dflt

/-- Embedding of ConfigManager.get_storage_destination (config_manager.py
lines 540-550): read storage.destination with default local and coerce any
value outside the known set back to local. -/
def getStorageDestination (raw : Option String) : String :=
  let dest := configGet raw "local"
  if dest == "local" || dest == "s3" || dest == "gcp" then dest else "local"

/-! ## Destination resolution (distill.py lines 210-264) -/

/-- Persisted storage state consulted by destination resolution. -/
structure StorageConfig where
  s3Configured : Bool
  gcpConfigured : Bool
  destinationRaw : Option String
  fallbackRaw : Option String

/-- The persisted fallback destination: config.get with default local. -/
def storageFallback (cfg : StorageConfig) : String := configGet cfg.fallbackRaw "local"

/-- Substitution applied to an unconfigured primary: the persisted fallback,
with the error sentinel replaced by local. -/
def substituteFallback (cfg : StorageConfig) : String :=
  let fb := storageFallback cfg
  if !(fb == "error") then fb else "local"

/-- The substitution block distill repeats for an s3 or gcp primary: an
unconfigured remote primary is replaced by the persisted fallback (error
sentinel meaning local); anything else is kept as is. -/
def resolvePrimary (cfg : StorageConfig) (d : String) : String :=
  if d == "s3" && !cfg.s3Configured then substituteFallback cfg
  else if d == "gcp" && !cfg.gcpConfigured then substituteFallback cfg
  else d

/-- Embedding of the destination-resolution block of distill (distill.py
lines 210-264).  Inputs are the three CLI flags and the persisted storage
state; the output triple is (upload_to_local, upload_to_s3, upload_to_gcp)
exactly as the code computes them. -/
def resolveDestinations (localFlag s3Flag gcpFlag : Bool) (cfg : StorageConfig) :
    Bool × Bool × Bool :=
  let flagsSet : List String :=
    (if localFlag then ["local"] else []) ++
    (if s3Flag then ["s3"] else []) ++
    (if gcpFlag then ["gcp"] else [])
  if 1 < flagsSet.length then
    let allConfigured := !(s3Flag && !cfg.s3Configured) && !(gcpFlag && !cfg.gcpConfigured)
    if allConfigured then
      (localFlag, s3Flag, gcpFlag)
    else
      (localFlag, s3Flag && cfg.s3Configured, gcpFlag && cfg.gcpConfigured)
  else if flagsSet.length == 1 then
    let dest := resolvePrimary cfg (flagsSet.headD "local")
    (dest == "local", dest == "s3", dest == "gcp")
  else
    let dest := resolvePrimary cfg (getStorageDestination cfg.destinationRaw)
    (dest == "local", dest == "s3", dest == "gcp")

/-- Number of destinations in a resolved (local, s3, gcp) triple. -/
def destCount (t : Bool × Bool × Bool) : Nat :=
  (if t.1 then 1 else 0) + (if t.2.1 then 1 else 0) + (if t.2.2 then 1 else 0)

/-- Number of destination flags set on the run. -/
def flagCount (localFlag s3Flag gcpFlag : Bool) : Nat :=
  (if localFlag then 1 else 0) + (if s3Flag then 1 else 0) + (if gcpFlag then 1 else 0)

/-- The persisted fallback names a real destination or the error sentinel. -/
def goodFallback (cfg : StorageConfig) : Prop :=
  storageFallback cfg = "local" ∨ storageFallback cfg = "s3" ∨
    storageFallback cfg = "gcp" ∨ storageFallback cfg = "error"

/-! ## Downloader (MediaDownloader.download, downloader.py lines 303-405)

The yt-dlp engine, the filesystem and the _find_downloaded_file probes are
oracle parameters; the control flow around them is transcribed from the
source.  Python name resolution is modelled explicitly because the fallback
loop references a name that is not bound in the scope of download. -/

/-- Result triple of MediaDownloader.download: (success, file_path, error_message). -/
structure DlResult where
  success : Bool
  filePath : Option String
  errorMsg : Option String
deriving DecidableEq

/-- The names visible inside the body of MediaDownloader.download: its
parameters and locals, the names bound inside the try/except blocks, and the
module-level imports and definitions of downloader.py.  The name audio_fmt is
not among them: it is a local variable of _build_ydl_opts only. -/
def downloadScopeNames : List String :=
  ["self", "url", "output_path", "audio_format", "video_format", "flac_flag",
   "progress_callback", "ydl_opts", "downloaded_files", "progress_hook",
   "expected_ext", "vf", "ext_map", "file_path", "error_msg", "e",
   "fallback_formats", "fmt_id", "ydl_opts_fallback", "ydl", "ydl_fallback",
   "fallback_error", "d", "filepath",
   "os", "time", "Path", "Optional", "Tuple", "Dict", "Any", "Callable",
   "yt_dlp", "setup_logger", "get_ytdl_logger", "ConfigManager",
   "get_ffmpeg_location", "logger", "MediaDownloader"]

/-- Python name lookup: referencing a name that is not in scope raises
NameError instead of producing a value. -/
def pyName (scope : List String) (name : String) : Except String Unit :=
  if name ∈ scope then Except.ok ()
  else Except.error ("NameError: name " ++ name ++ " is not defined")

/-- One iteration of the audio 403-fallback loop (downloader.py lines
384-399).  The body copies the options, then evaluates the bare name
audio_fmt (line 389) before invoking the engine; engine is the outcome of
ydl_fallback.download for the given format id, findFb what
_find_downloaded_file returns afterwards, and fs the filesystem existence
check.  Any raised exception is the error case, which the loop swallows. -/
def fallbackAttempt (fs : String → Bool) (engine : String → Except String Unit)
    (findFb : String → Option String) (fmtId : String) : Except String (Option String) :=
  match pyName downloadScopeNames "audio_fmt" with
  | Except.error e => Except.error e
  | Except.ok _ =>
    match engine fmtId with
    | Except.error e => Except.error e
    | Except.ok _ =>
      match findFb fmtId with
      | some p => if fs p then Except.ok (some p) else Except.ok none
      | none => Except.ok none

/-- The fallback chain: try each format id in order, returning the first
attempt that locates an existing artifact; exceptions and misses continue. -/
def fallbackChain (fs : String → Bool) (engine : String → Except String Unit)
    (findFb : String → Option String) : List String → Option String
  | [] => none
  | fmtId :: rest =>
    match fallbackAttempt fs engine findFb fmtId with
    | Except.ok (some p) => some p
    | _ => fallbackChain fs engine findFb rest

/-- Embedding of MediaDownloader.download (downloader.py lines 303-405).
mainRun is the outcome of the primary yt-dlp invocation (ok, or the raised
exception text), findMain what _find_downloaded_file returns after it,
videoFormat the video_format argument, and fs/engine/findFb as above. -/
def downloadModel (fs : String → Bool) (videoFormat : Option String)
    (mainRun : Except String Unit) (findMain : Option String)
    (engine : String → Except String Unit) (findFb : String → Option String) : DlResult :=
  match mainRun with
  | Except.ok _ =>
    match findMain with
    | some p =>
      if fs p then ⟨true, some p, none⟩
      else ⟨false, none, some "Download finished but output file not found"⟩
    | none => ⟨false, none, some "Download finished but output file not found"⟩
  | Except.error errMsg =>
    if videoFormat.isNone && (pyIn "403" (pyLower errMsg) || pyIn "forbidden" (pyLower errMsg)) then
      match fallbackChain fs engine findFb ["140", "139", "251"] with
      | some p => ⟨true, some p, none⟩
      | none =>
        ⟨false, none,
          some ("Download failed: " ++ errMsg ++ " (tried fallback formats: 140, 139, 251)")⟩
    else ⟨false, none, some ("Download failed: " ++ errMsg)⟩

/-! ## Batch execution (_run_batch_execution, batch.py lines 293-335) -/

/-- How one job invocation inside the batch loop ends: a normal return, a
typer.Exit with some code, an ordinary exception, or a KeyboardInterrupt
(which except Exception does not catch). -/
inductive JobOutcome where
  | normal
  | exited (code : Int)
  | raised
  | interrupted
deriving DecidableEq

/-- Result of _run_batch_execution: the ALCHEMUX_BATCH value after the call,
the value each processed job observed, and the printed summary (successes,
failures, total), present only when the loop ran to completion. -/
structure BatchResult where
  finalBatchEnv : Option String
  jobEnvs : List (Option String)
  summary : Option (Nat × Nat × Nat)
deriving DecidableEq

/-- The per-job loop of _run_batch_execution: env is the ALCHEMUX_BATCH value
in force (set before the loop and unchanged by it).  Returns the env observed
by each processed job, the success and failure counters, and whether the loop
completed (an interrupt propagates and aborts it). -/
def runJobsLoop (env : Option String) : List JobOutcome → List (Option String) × Nat × Nat × Bool
  | [] => ([], 0, 0, true)
  | j :: rest =>
    match j with
    | JobOutcome.interrupted => ([env], 0, 0, false)
    | JobOutcome.normal =>
      let tail := runJobsLoop env rest
      (env :: tail.1, 1 + tail.2.1, tail.2.2.1, tail.2.2.2)
    | JobOutcome.exited c =>
      let tail := runJobsLoop env rest
      (env :: tail.1, tail.2.1, (if c ≠ 0 then 1 else 0) + tail.2.2.1, tail.2.2.2)
    | JobOutcome.raised =>
      let tail := runJobsLoop env rest
      (env :: tail.1, tail.2.1, 1 + tail.2.2.1, tail.2.2.2)

/-- Embedding of _run_batch_execution (batch.py lines 293-335): save the
previous ALCHEMUX_BATCH value, set it to "1", run the loop, and in the
finally block pop the variable when it was previously absent or restore the
previous value otherwise.  The summary line prints only when the loop was not
aborted by an interrupt. -/
def runBatchExecution (prevEnv : Option String) (jobs : List JobOutcome) : BatchResult :=
  let envDuring : Option String := some "1"
  let r := runJobsLoop envDuring jobs
  let restored : Option String :=
    match prevEnv with
    | none => none
    | some v => some v
  { finalBatchEnv := restored
    jobEnvs := r.1
    summary := if r.2.2.2 then some (r.2.1, r.2.2.1, jobs.length) else none }

/-! ## The per-format loop of distill (distill.py lines 182-203 and 297-417) -/

/-- video_ext_map lookup on an already lowercased format, with default .mp4. -/
def videoExtMap (fmt : String) : String :=
  if fmt == "mp4" then ".mp4" else if fmt == "mkv" then ".mkv"
  else if fmt == "webm" then ".webm" else if fmt == "mov" then ".mov"
  else if fmt == "avi" then ".avi" else if fmt == "flv" then ".flv"
  else if fmt == "gif" then ".gif" else ".mp4"

/-- audio_ext_map lookup on an already lowercased format, with default .mp3. -/
def audioExtMap (fmt : String) : String :=
  if fmt == "aac" then ".aac" else if fmt == "alac" then ".m4a"
  else if fmt == "m4a" then ".m4a" else if fmt == "opus" then ".opus"
  else if fmt == "vorbis" then ".ogg" else if fmt == "wav" then ".wav"
  else ".mp3"

/-- Python lstrip("."): drop every leading dot. -/
def lstripDot (s : String) : String :=
  String.mk (s.toList.dropWhile (fun c => c == '.'))

/-- The key recorded for a seal or fracture entry:
ext.lstrip(".") or fmt or "file" with Python truthiness. -/
def extKey (ext fmt : String) : String :=
  let k := lstripDot ext
  if !(k == "") then k else if !(fmt == "") then fmt else "file"

/-- The extension chosen at the top of each loop iteration (distill.py lines
308-313), depending on the current is_video_run state. -/
def iterExt (isVideoRun : Bool) (fmt : String) : String :=
  if isVideoRun then videoExtMap (pyLower fmt)
  else if pyLower fmt == "flac" then ".flac"
  else audioExtMap (pyLower fmt)

/-- Arguments of one downloader.download invocation made by distill. -/
structure DlCall where
  audioFormat : Option String
  videoFormat : Option String
  flacFlag : Bool
deriving DecidableEq

/-- Configuration and CLI inputs consumed by the per-format loop.  norm is
the cause normalizer applied to raw errors when recording fractures (the
program passes _normalize_fracture_cause). -/
structure JobConfig where
  audioFormatCfg : String
  flacCli : Bool
  uploadToGcp : Bool
  uploadToS3 : Bool
  norm : Option String → String

/-- Mutable state threaded through the per-format loop of distill. -/
structure JobState where
  sealItems : List (String × String)
  fractured : List (String × String)
  firstFilePath : Option String
  isVideoRun : Bool
  dlCalls : List DlCall
  uploadCalls : List (String × String)

/-- Embedding of the upload/display block of one loop iteration (distill.py
lines 381-405).  gcpUpload and s3Upload are the uploader oracles (attempted
only when the corresponding flag is set: the uploader object exists exactly
when its flag was resolved, and an unconfigurable uploader aborts before the
loop).  Returns the this_display value and the list of upload attempts made,
as (destination, artifact path) pairs in attempt order. -/
def dispatchUploads (cfg : JobConfig) (gcpUpload s3Upload : String → Bool × String)
    (filePath : Option String) : Option String × List (String × String) :=
  match filePath with
  | none => (none, [])
  | some p =>
    if p == "" then (none, [])
    else
      let step1 : Option String × List (String × String) :=
        if cfg.uploadToGcp then
          let r := gcpUpload p
          (some (if r.1 then r.2 else p), [("gcp", p)])
        else (none, [])
      let step2 : Option String × List (String × String) :=
        if cfg.uploadToS3 then
          let r := s3Upload p
          (match step1.1 with
           | none => some (if r.1 then r.2 else p)
           | some d => some d,
           step1.2 ++ [("s3", p)])
        else step1
      let display : Option String :=
        match step2.1 with
        | none => some p
        | some d => some d
      (display, step2.2)

/-- Embedding of the success tail of one loop iteration (distill.py lines
365-405): update first_file_path, inscribe metadata (no state effect: failure
is only logged), dispatch uploads, and record a seal item when this_display
is truthy. -/
def finishSuccess (cfg : JobConfig) (gcpUpload s3Upload : String → Bool × String)
    (st : JobState) (fmt ext : String) (filePath : Option String) : JobState :=
  let st1 :=
    if !(pyTruthy st.firstFilePath) && pyTruthy filePath then
      { st with firstFilePath := filePath }
    else st
  let du := dispatchUploads cfg gcpUpload s3Upload filePath
  let st2 := { st1 with uploadCalls := st1.uploadCalls ++ du.2 }
  match du.1 with
  | some d =>
    if !(d == "") then { st2 with sealItems := st2.sealItems ++ [(extKey ext fmt, d)] }
    else st2
  | none => st2

/-- The downloader invocation made at the top of a loop iteration
(distill.py lines 323-330): audio_format and video_format depend on
is_video_run, flac_flag is fmt == "flac" and the flac CLI flag. -/
def firstCall (isVideoRun flacCli : Bool) (fmt : String) : DlCall :=
  { audioFormat := if isVideoRun then none else some fmt
    videoFormat := if isVideoRun then some fmt else none
    flacFlag := fmt == "flac" && flacCli }

/-- The audio-only retry invocation of the video fallback (distill.py lines
338-345): the persisted default audio format, no video, no flac flag. -/
def retryCall (audioFormatCfg : String) : DlCall :=
  { audioFormat := some audioFormatCfg, videoFormat := none, flacFlag := false }

/-- The provider-blocked signature test distill applies to a raw video
failure (distill.py line 333): 403, video data or forbidden as substrings of
the lowercased message. -/
def blockedSig (err : Option String) : Bool :=
  pyIn "403" (pyLower (err.getD "")) || pyIn "video data" (pyLower (err.getD "")) ||
    pyIn "forbidden" (pyLower (err.getD ""))

/-- Embedding of one iteration of the per-format loop of distill (distill.py
lines 305-405): choose the extension, invoke the downloader, on a
provider-blocked video failure retry once as audio with the persisted default
audio format (updating the extension and demoting is_video_run on success),
record a fracture on failure, and run the success tail otherwise.  dl is the
downloader oracle; every invocation is appended to dlCalls. -/
def processFormat (cfg : JobConfig) (dl : DlCall → DlResult)
    (gcpUpload s3Upload : String → Bool × String) (st : JobState) (fmt : String) : JobState :=
  let ext := iterExt st.isVideoRun fmt
  let call1 : DlCall := firstCall st.isVideoRun cfg.flacCli fmt
  let r1 := dl call1
  let stA := { st with dlCalls := st.dlCalls ++ [call1] }
  if r1.success then
    finishSuccess cfg gcpUpload s3Upload stA fmt ext r1.filePath
  else
    if stA.isVideoRun && blockedSig r1.errorMsg then
      let call2 : DlCall := retryCall cfg.audioFormatCfg
      let r2 := dl call2
      let stB := { stA with dlCalls := stA.dlCalls ++ [call2] }
      if r2.success then
        let ext2 := audioExtMap (pyLower cfg.audioFormatCfg)
        let stC := { stB with isVideoRun := false }
        finishSuccess cfg gcpUpload s3Upload stC fmt ext2 r2.filePath
      else
        { stB with fractured := stB.fractured ++ [(extKey ext fmt, cfg.norm r2.errorMsg)] }
    else
      { stA with fractured := stA.fractured ++ [(extKey ext fmt, cfg.norm r1.errorMsg)] }

/-- Initial loop state: is_video_run = bool(video_format) (distill.py 301). -/
def initJobState (videoFormatFlag : Option String) : JobState :=
  { sealItems := [], fractured := [], firstFilePath := none,
    isVideoRun := pyTruthy videoFormatFlag, dlCalls := [], uploadCalls := [] }

/-- The whole per-format loop of distill over the resolved format list. -/
def runDistillJob (cfg : JobConfig) (dl : DlCall → DlResult)
    (gcpUpload s3Upload : String → Bool × String) (videoFormatFlag : Option String)
    (formats : List String) : JobState :=
  formats.foldl (processFormat cfg dl gcpUpload s3Upload) (initJobState videoFormatFlag)

/-- Exit behaviour after the loop (distill.py lines 411-417): exit code 1
exactly when there are fractures and no seal items, else a normal exit. -/
def distillExitCode (st : JobState) : Nat :=
  if st.fractured ≠ [] ∧ st.sealItems = [] then 1 else 0

/-- Embedding of the format-resolution block (distill.py lines 182-203).
Option-valued flags model the CLI options; videoFormatCfg, videoEnabled,
audioEnabled and audioFormatCfg model media.video.format,
media.video.enabled_formats, media.audio.enabled_formats and
media.audio.format (the latter with its default mp3 already applied). -/
def formatsToProduce (videoFormatFlag : Option String) (flacFlag : Bool)
    (audioFormatFlag : Option String) (videoFormatCfg : String)
    (videoEnabled audioEnabled : List String) (audioFormatCfg : String) : List String :=
  let videoEnabledInConfig :=
    (!(videoFormatCfg == "") && !(pyStrip videoFormatCfg == "")) || !videoEnabled.isEmpty
  if pyTruthy videoFormatFlag && videoEnabledInConfig then
    [(videoFormatFlag).getD ""]
  else if flacFlag then
    ["flac"]
  else if pyTruthy audioFormatFlag then
    [(audioFormatFlag).getD ""]
  else if videoEnabledInConfig then
    let videoFormats :=
      if !videoEnabled.isEmpty then videoEnabled
      else if !(videoFormatCfg == "") then [videoFormatCfg] else []
    let audioFormats := if !audioEnabled.isEmpty then audioEnabled else [audioFormatCfg]
    audioFormats ++ videoFormats
  else if !audioEnabled.isEmpty then audioEnabled
  else [audioFormatCfg]

/-- Well-formedness of a downloader result as distill consumes it: a success
carries a non-empty artifact path and a failure carries no path.  This is
exactly the shape established for MediaDownloader.download. -/
def wfDlResult (r : DlResult) : Prop :=
  (r.success = true → ∃ p, r.filePath = some p ∧ p ≠ "") ∧
    (r.success = false → r.filePath = none)

/-- The declarative description of the displayed location the amended claim
C7 uses: the first attempted remote upload determines it (its location on
success, the local path on failure); with no remote attempted it is the
local path. -/
def firstAttemptDisplay (utg uts : Bool) (gcpUpload s3Upload : String → Bool × String)
    (p : String) : String :=
  if utg then (if (gcpUpload p).1 then (gcpUpload p).2 else p)
  else if uts then (if (s3Upload p).1 then (s3Upload p).2 else p)
  else p

/-- Two loop states agree on everything the control flow and the success
reporting can observe: seal items, the set and order of fracture keys, the
first file path, the video mode, and the call traces.  Only the recorded
fracture causes (display text) may differ. -/
def SameShape (st1 st2 : JobState) : Prop :=
  st1.sealItems = st2.sealItems ∧
    st1.fractured.map Prod.fst = st2.fractured.map Prod.fst ∧
    st1.firstFilePath = st2.firstFilePath ∧
    st1.isVideoRun = st2.isVideoRun ∧
    st1.dlCalls = st2.dlCalls ∧
    st1.uploadCalls = st2.uploadCalls

/-! ## Concrete oracle fixtures used by witnesses and counterexamples -/

/-- Downloader oracle that fails every call with a network error. -/
def dlAllFail : DlCall → DlResult := fun _ => ⟨false, none, some "network error"⟩

/-- Downloader oracle: video requests are provider-blocked with HTTP 403,
audio requests succeed with a fixed artifact path. -/
def dlVideoBlocked : DlCall → DlResult := fun c =>
  if c.videoFormat.isSome then ⟨false, none, some "HTTP Error 403: Forbidden"⟩
  else ⟨true, some "/downloads/track.mp3", none⟩

/-- Downloader oracle that succeeds on every call with a fixed artifact. -/
def dlAlwaysOk : DlCall → DlResult := fun _ => ⟨true, some "/downloads/song.mp3", none⟩

/-- Uploader oracle that always fails. -/
def uploaderFails : String → Bool × String := fun _ => (false, "upload failed")

/-- Uploader oracle modelling a failing GCP upload. -/
def gcpFails : String → Bool × String := fun _ => (false, "gcp upload failed")

/-- Uploader oracle modelling a succeeding S3 upload with a bucket URL. -/
def s3Ok : String → Bool × String := fun _ => (true, "s3://bucket/song.mp3")

/-! ## Helper lemmas: storage destinations -/

theorem storageDest_mem (raw : Option String) :
    getStorageDestination raw = "local" ∨ getStorageDestination raw = "s3" ∨
      getStorageDestination raw = "gcp" := by
  simp only [getStorageDestination]
  split
  · rename_i h
    simp only [Bool.or_eq_true, beq_iff_eq] at h
    tauto
  · exact Or.inl rfl

theorem substituteFallback_mem (cfg : StorageConfig) (h : goodFallback cfg) :
    substituteFallback cfg = "local" ∨ substituteFallback cfg = "s3" ∨
      substituteFallback cfg = "gcp" := by
  simp only [substituteFallback]
  rcases h with h | h | h | h <;> rw [h] <;> simp

theorem resolvePrimary_mem (cfg : StorageConfig) (d : String)
    (hd : d = "local" ∨ d = "s3" ∨ d = "gcp") (hf : goodFallback cfg) :
    resolvePrimary cfg d = "local" ∨ resolvePrimary cfg d = "s3" ∨
      resolvePrimary cfg d = "gcp" := by
  simp only [resolvePrimary]
  split
  · exact substituteFallback_mem cfg hf
  · split
    · exact substituteFallback_mem cfg hf
    · exact hd

theorem destCount_triple (d : String) (h : d = "local" ∨ d = "s3" ∨ d = "gcp") :
    destCount (d == "local", d == "s3", d == "gcp") = 1 := by
  rcases h with rfl | rfl | rfl <;> decide

theorem destCount_resolvePrimary (cfg : StorageConfig) (d : String)
    (hd : d = "local" ∨ d = "s3" ∨ d = "gcp") (hf : goodFallback cfg) :
    destCount (resolvePrimary cfg d == "local", resolvePrimary cfg d == "s3",
      resolvePrimary cfg d == "gcp") = 1 :=
  destCount_triple _ (resolvePrimary_mem cfg d hd hf)

theorem destCount_le_three (t : Bool × Bool × Bool) : destCount t ≤ 3 := by
  obtain ⟨a, b, c⟩ := t
  cases a <;> cases b <;> cases c <;> decide

theorem destCount_pos_first (t : Bool × Bool × Bool) (h : t.1 = true) :
    1 ≤ destCount t := by
  obtain ⟨a, b, c⟩ := t
  cases a
  · exact Bool.noConfusion h
  · cases b <;> cases c <;> decide

theorem destCount_pos_second (t : Bool × Bool × Bool) (h : t.2.1 = true) :
    1 ≤ destCount t := by
  obtain ⟨a, b, c⟩ := t
  cases b
  · exact Bool.noConfusion h
  · cases a <;> cases c <;> decide

theorem destCount_pos_third (t : Bool × Bool × Bool) (h : t.2.2 = true) :
    1 ≤ destCount t := by
  obtain ⟨a, b, c⟩ := t
  cases c
  · exact Bool.noConfusion h
  · cases a <;> cases b <;> decide

/-! ## Claim C1 -/

/-- Claim C1 counterexample: with the s3 and gcp flags both set and neither
remote configured (and the local flag not set), destination resolution keeps
none of the flagged destinations and resolves to the empty set, refuting the
claim that the result always contains at least one destination with Local as
the terminal fallback. -/
theorem C1_counterexample :
    destCount (resolveDestinations false true true
      { s3Configured := false, gcpConfigured := false,
        destinationRaw := none, fallbackRaw := none }) = 0 := by decide

/-- Claim C1 (amended): destination resolution returns at most three
destinations, and at least one provided that either at most one flag is set
and the persisted fallback is one of local, s3, gcp or the error sentinel,
or the local flag is set, or some flagged remote destination is configured.
In the remaining multi-flag case (no local flag, no flagged remote
configured) the resolved set is empty rather than falling back to Local. -/
theorem C1_destination_resolution_amended (localFlag s3Flag gcpFlag : Bool)
    (cfg : StorageConfig)
    (h : (flagCount localFlag s3Flag gcpFlag ≤ 1 ∧ goodFallback cfg) ∨
         localFlag = true ∨ (s3Flag = true ∧ cfg.s3Configured = true) ∨
         (gcpFlag = true ∧ cfg.gcpConfigured = true)) :
    1 ≤ destCount (resolveDestinations localFlag s3Flag gcpFlag cfg) ∧
      destCount (resolveDestinations localFlag s3Flag gcpFlag cfg) ≤ 3 := by
  refine ⟨?_, destCount_le_three _⟩
  obtain ⟨s3c, gcpc, draw, fraw⟩ := cfg
  cases localFlag with
  | true =>
    cases s3Flag <;> cases gcpFlag <;> cases s3c <;> cases gcpc <;>
      exact destCount_pos_first _ rfl
  | false =>
    cases s3Flag with
    | true =>
      cases gcpFlag with
      | true =>
        rcases h with ⟨hfc, -⟩ | hX | ⟨-, hC⟩ | ⟨-, hC⟩
        · exact absurd hfc (by decide)
        · exact Bool.noConfusion hX
        · have hC2 : s3c = true := hC
          subst hC2
          cases gcpc <;> exact destCount_pos_second _ rfl
        · have hC2 : gcpc = true := hC
          subst hC2
          cases s3c <;> exact destCount_pos_third _ rfl
      | false =>
        cases s3c with
        | true => exact destCount_pos_second _ rfl
        | false =>
          have hf : goodFallback ⟨false, gcpc, draw, fraw⟩ := by
            rcases h with ⟨-, hf⟩ | hX | ⟨-, hC⟩ | ⟨hC, -⟩
            · exact hf
            · exact Bool.noConfusion hX
            · exact Bool.noConfusion (show false = true from hC)
            · exact Bool.noConfusion hC
          exact le_of_eq (destCount_resolvePrimary ⟨false, gcpc, draw, fraw⟩ "s3"
            (Or.inr (Or.inl rfl)) hf).symm
    | false =>
      cases gcpFlag with
      | true =>
        cases gcpc with
        | true => exact destCount_pos_third _ rfl
        | false =>
          have hf : goodFallback ⟨s3c, false, draw, fraw⟩ := by
            rcases h with ⟨-, hf⟩ | hX | ⟨hC, -⟩ | ⟨-, hC⟩
            · exact hf
            · exact Bool.noConfusion hX
            · exact Bool.noConfusion hC
            · exact Bool.noConfusion (show false = true from hC)
          exact le_of_eq (destCount_resolvePrimary ⟨s3c, false, draw, fraw⟩ "gcp"
            (Or.inr (Or.inr rfl)) hf).symm
      | false =>
        have hf : goodFallback ⟨s3c, gcpc, draw, fraw⟩ := by
          rcases h with ⟨-, hf⟩ | hX | ⟨hC, -⟩ | ⟨hC, -⟩
          · exact hf
          · exact Bool.noConfusion hX
          · exact Bool.noConfusion hC
          · exact Bool.noConfusion hC
        exact le_of_eq (destCount_resolvePrimary ⟨s3c, gcpc, draw, fraw⟩
          (getStorageDestination draw) (storageDest_mem draw) hf).symm

/-- Claim C1 witness: a single s3 flag with s3 unconfigured and no persisted
fallback resolves to exactly the local destination. -/
theorem C1_witness :
    1 ≤ destCount (resolveDestinations false true false
        { s3Configured := false, gcpConfigured := false,
          destinationRaw := none, fallbackRaw := none }) ∧
      destCount (resolveDestinations false true false
        { s3Configured := false, gcpConfigured := false,
          destinationRaw := none, fallbackRaw := none }) ≤ 3 :=
  C1_destination_resolution_amended false true false
    { s3Configured := false, gcpConfigured := false,
      destinationRaw := none, fallbackRaw := none }
    (Or.inl ⟨by decide, Or.inl rfl⟩)

/-! ## Claim C10 -/

/-- Claim C10: get_storage_destination always returns one of local, s3, gcp;
a persisted value outside this set, and likewise a missing value, is coerced
to local rather than propagated or raising. -/
theorem C10_storage_destination_closed (raw : Option String) :
    (getStorageDestination raw = "local" ∨ getStorageDestination raw = "s3" ∨
        getStorageDestination raw = "gcp")
    ∧ (∀ v, raw = some v → ¬(v = "local" ∨ v = "s3" ∨ v = "gcp") →
        getStorageDestination raw = "local")
    ∧ (raw = none → getStorageDestination raw = "local") := by
  refine ⟨storageDest_mem raw, ?_, ?_⟩
  · rintro v rfl hv
    simp only [getStorageDestination, configGet, Option.getD]
    split
    · rename_i hcond
      simp only [Bool.or_eq_true, beq_iff_eq] at hcond
      exact absurd (by tauto : v = "local" ∨ v = "s3" ∨ v = "gcp") hv
    · rfl
  · rintro rfl
    rfl

/-- Claim C10 witness: a persisted junk value and a missing value both
resolve to local. -/
theorem C10_witness :
    getStorageDestination (some "banana") = "local" ∧
      getStorageDestination none = "local" :=
  ⟨(C10_storage_destination_closed (some "banana")).2.1 "banana" rfl (by decide),
   (C10_storage_destination_closed none).2.2 rfl⟩

/-! ## Helper lemmas: downloader fallback chain -/

theorem fallbackAttempt_nameError (fs : String → Bool) (engine : String → Except String Unit)
    (findFb : String → Option String) (fmtId : String) :
    fallbackAttempt fs engine findFb fmtId =
      Except.error "NameError: name audio_fmt is not defined" := rfl

theorem fallbackChain_none (fs : String → Bool) (engine : String → Except String Unit)
    (findFb : String → Option String) (l : List String) :
    fallbackChain fs engine findFb l = none := by
  induction l with
  | nil => rfl
  | cons fmtId rest ih =>
    simp only [fallbackChain, fallbackAttempt_nameError]
    exact ih

/-! ## Claim C2 -/

/-- Claim C2 (code bug in the source): for every behaviour of the extraction
engine and of the artifact probes - including an engine that would succeed on
the very first alternate id 140 - an audio-format download whose primary
attempt raised HTTP Error 403: Forbidden ends as a failure mentioning the
exhausted chain.  The loop body references the name audio_fmt, which is not
bound in the scope of download, so every iteration raises NameError before
the engine is ever invoked and the chain can never succeed, contradicting
the documented retry-until-first-success behaviour. -/
theorem C2_audio_fallback_chain_dead (fs : String → Bool) (findMain : Option String)
    (engine : String → Except String Unit) (findFb : String → Option String) :
    downloadModel fs none (Except.error "HTTP Error 403: Forbidden") findMain engine findFb =
      ⟨false, none,
        some "Download failed: HTTP Error 403: Forbidden (tried fallback formats: 140, 139, 251)"⟩ := by
  have hc := fallbackChain_none fs engine findFb ["140", "139", "251"]
  simp only [downloadModel, hc]
  rw [if_pos (by decide :
    ((none : Option String).isNone &&
      (pyIn "403" (pyLower "HTTP Error 403: Forbidden") ||
        pyIn "forbidden" (pyLower "HTTP Error 403: Forbidden"))) = true)]
  rfl

/-! ## Claim C9 -/

/-- Claim C9: every result of download is internally consistent: success
comes with an artifact path that the filesystem check confirmed to exist and
no error message, and failure comes with no path and a non-empty error
message. -/
theorem C9_download_result_consistent (fs : String → Bool) (videoFormat : Option String)
    (mainRun : Except String Unit) (findMain : Option String)
    (engine : String → Except String Unit) (findFb : String → Option String) :
    (∃ p, downloadModel fs videoFormat mainRun findMain engine findFb = ⟨true, some p, none⟩ ∧
        fs p = true) ∨
    (∃ m, downloadModel fs videoFormat mainRun findMain engine findFb = ⟨false, none, some m⟩) := by
  cases mainRun with
  | ok u =>
    cases findMain with
    | some p =>
      cases hfs : fs p with
      | true => exact Or.inl ⟨p, by simp [downloadModel, hfs], hfs⟩
      | false =>
        exact Or.inr ⟨"Download finished but output file not found",
          by simp [downloadModel, hfs]⟩
    | none =>
      exact Or.inr ⟨"Download finished but output file not found", by simp [downloadModel]⟩
  | error errMsg =>
    cases hb : (videoFormat.isNone &&
        (pyIn "403" (pyLower errMsg) || pyIn "forbidden" (pyLower errMsg))) with
    | true =>
      exact Or.inr ⟨"Download failed: " ++ errMsg ++ " (tried fallback formats: 140, 139, 251)",
        by simp [downloadModel, hb, fallbackChain_none]⟩
    | false =>
      exact Or.inr ⟨"Download failed: " ++ errMsg, by simp [downloadModel, hb]⟩

/-! ## Helper lemmas: batch loop -/

theorem runJobsLoop_counts (env : Option String) (jobs : List JobOutcome) :
    (runJobsLoop env jobs).2.2.2 = true → JobOutcome.exited 0 ∉ jobs →
    (runJobsLoop env jobs).2.1 + (runJobsLoop env jobs).2.2.1 = jobs.length := by
  induction jobs with
  | nil => intro _ _; rfl
  | cons j rest ih =>
    intro hdone hmem
    cases j with
    | interrupted => exact Bool.noConfusion hdone
    | normal =>
      have hd : (runJobsLoop env rest).2.2.2 = true := hdone
      have ih2 := ih hd (fun hr => hmem (List.mem_cons_of_mem _ hr))
      simp only [runJobsLoop, List.length_cons]
      omega
    | raised =>
      have hd : (runJobsLoop env rest).2.2.2 = true := hdone
      have ih2 := ih hd (fun hr => hmem (List.mem_cons_of_mem _ hr))
      simp only [runJobsLoop, List.length_cons]
      omega
    | exited c =>
      have hd : (runJobsLoop env rest).2.2.2 = true := hdone
      have ih2 := ih hd (fun hr => hmem (List.mem_cons_of_mem _ hr))
      have hc : c ≠ 0 := fun h0 => hmem (by rw [h0]; exact List.mem_cons_self _ _)
      simp only [runJobsLoop, List.length_cons, if_pos hc]
      omega

theorem runJobsLoop_envs (env : Option String) (jobs : List JobOutcome) :
    (runJobsLoop env jobs).1.all (fun e => e == env) = true := by
  induction jobs with
  | nil => rfl
  | cons j rest ih =>
    cases j <;> simp [runJobsLoop, ih]

/-! ## Claim C3 -/

/-- Claim C3 counterexample: a job that exits via typer.Exit with exit code 0
is counted neither as a success nor as a failure, so a completed batch of one
such job reports succeeded + failed = 0 while total = 1, refuting the claimed
invariant for typer.Exit with arbitrary exit codes. -/
theorem C3_counterexample :
    (runBatchExecution none [JobOutcome.exited 0]).summary = some (0, 0, 1) ∧
      (0 : Nat) + 0 ≠ 1 := by
  constructor
  · rfl
  · decide

/-- Claim C3 (amended): for every batch that completes (its summary is
printed), succeeded + failed = total holds provided no job invocation exited
via typer.Exit with code 0; normal returns count as successes, ordinary
exceptions and non-zero typer.Exit codes as failures, while a typer.Exit
with code 0 would be counted as neither. -/
theorem C3_batch_summary_amended (prevEnv : Option String) (jobs : List JobOutcome)
    (hnz : JobOutcome.exited 0 ∉ jobs)
    (hdone : (runBatchExecution prevEnv jobs).summary ≠ none) :
    ∃ s f, (runBatchExecution prevEnv jobs).summary = some (s, f, jobs.length) ∧
      s + f = jobs.length := by
  cases hl : (runJobsLoop (some "1") jobs).2.2.2 with
  | false =>
    exact absurd (by simp [runBatchExecution, hl]) hdone
  | true =>
    refine ⟨(runJobsLoop (some "1") jobs).2.1, (runJobsLoop (some "1") jobs).2.2.1,
      by simp [runBatchExecution, hl], runJobsLoop_counts (some "1") jobs hl hnz⟩

/-- Claim C3 witness: a batch of a normal job, a raising job and a job
exiting with code 1 completes with summary (1, 2, 3) and 1 + 2 = 3. -/
theorem C3_witness :
    ∃ s f,
      (runBatchExecution none
        [JobOutcome.normal, JobOutcome.raised, JobOutcome.exited 1]).summary =
        some (s, f, [JobOutcome.normal, JobOutcome.raised, JobOutcome.exited 1].length) ∧
      s + f = [JobOutcome.normal, JobOutcome.raised, JobOutcome.exited 1].length :=
  C3_batch_summary_amended none [JobOutcome.normal, JobOutcome.raised, JobOutcome.exited 1]
    (by decide) (by decide)

/-! ## Claim C8 -/

/-- Claim C8 counterexample: when ALCHEMUX_BATCH was already set before the
batch started, the end of the batch restores that previous value instead of
clearing the variable, so the flag is still set afterwards, refuting the
claimed unconditional clearing. -/
theorem C8_counterexample :
    (runBatchExecution (some "1") []).finalBatchEnv = some "1" := rfl

/-- Claim C8 (amended): the pacing flag is set to "1" before every processed
job observes it, and when the batch ends - including an early abort by an
interrupt - ALCHEMUX_BATCH is restored to its pre-batch value: removed when
it was previously absent, reinstated otherwise.  The batch itself therefore
never leaks the flag, but it clears it only when the flag was not already
set before the batch. -/
theorem C8_pacing_flag_restored (prevEnv : Option String) (jobs : List JobOutcome) :
    (runBatchExecution prevEnv jobs).finalBatchEnv = prevEnv ∧
      (runBatchExecution prevEnv jobs).jobEnvs.all (fun e => e == some "1") = true := by
  constructor
  · cases prevEnv <;> rfl
  · simpa [runBatchExecution] using runJobsLoop_envs (some "1") jobs

/-! ## Helper lemmas: the distill loop -/

theorem dispatchUploads_eq (cfg : JobConfig) (gcpU s3U : String → Bool × String)
    (p : String) (hp : ¬(p = "")) :
    dispatchUploads cfg gcpU s3U (some p) =
      (some (firstAttemptDisplay cfg.uploadToGcp cfg.uploadToS3 gcpU s3U p),
        (if cfg.uploadToGcp then [("gcp", p)] else []) ++
          (if cfg.uploadToS3 then [("s3", p)] else [])) := by
  cases hg : cfg.uploadToGcp <;> cases hs : cfg.uploadToS3 <;>
    simp [dispatchUploads, firstAttemptDisplay, hg, hs, hp]

theorem firstAttemptDisplay_ne (utg uts : Bool) (gcpU s3U : String → Bool × String)
    (p : String) (hp : p ≠ "")
    (hg : ∀ q, (gcpU q).1 = true → (gcpU q).2 ≠ "")
    (hs : ∀ q, (s3U q).1 = true → (s3U q).2 ≠ "") :
    firstAttemptDisplay utg uts gcpU s3U p ≠ "" := by
  unfold firstAttemptDisplay
  cases utg with
  | true =>
    cases h1 : (gcpU p).1 with
    | true => simpa [h1] using hg p h1
    | false => simpa [h1] using hp
  | false =>
    cases uts with
    | true =>
      cases h1 : (s3U p).1 with
      | true => simpa [h1] using hs p h1
      | false => simpa [h1] using hp
    | false => simpa using hp

theorem finishSuccess_components (cfg : JobConfig) (gcpU s3U : String → Bool × String)
    (st : JobState) (fmt ext p : String) (hp : ¬(p = ""))
    (hg : ∀ q, (gcpU q).1 = true → (gcpU q).2 ≠ "")
    (hs : ∀ q, (s3U q).1 = true → (s3U q).2 ≠ "") :
    (finishSuccess cfg gcpU s3U st fmt ext (some p)).sealItems =
        st.sealItems ++
          [(extKey ext fmt, firstAttemptDisplay cfg.uploadToGcp cfg.uploadToS3 gcpU s3U p)] ∧
      (finishSuccess cfg gcpU s3U st fmt ext (some p)).fractured = st.fractured ∧
      (finishSuccess cfg gcpU s3U st fmt ext (some p)).dlCalls = st.dlCalls ∧
      (finishSuccess cfg gcpU s3U st fmt ext (some p)).isVideoRun = st.isVideoRun ∧
      (finishSuccess cfg gcpU s3U st fmt ext (some p)).uploadCalls =
        st.uploadCalls ++
          ((if cfg.uploadToGcp then [("gcp", p)] else []) ++
            (if cfg.uploadToS3 then [("s3", p)] else [])) ∧
      (finishSuccess cfg gcpU s3U st fmt ext (some p)).firstFilePath =
        (if pyTruthy st.firstFilePath then st.firstFilePath else some p) := by
  have hne := firstAttemptDisplay_ne cfg.uploadToGcp cfg.uploadToS3 gcpU s3U p hp hg hs
  have hb : (firstAttemptDisplay cfg.uploadToGcp cfg.uploadToS3 gcpU s3U p == "") = false := by
    simpa using hne
  unfold finishSuccess
  rw [dispatchUploads_eq cfg gcpU s3U p hp]
  cases hf : pyTruthy st.firstFilePath <;> simp [hf, hb, pyTruthy, hp]

theorem processFormat_success (cfg : JobConfig) (dl : DlCall → DlResult)
    (gcpU s3U : String → Bool × String) (st : JobState) (fmt p : String)
    (h1 : (dl (firstCall st.isVideoRun cfg.flacCli fmt)).success = true)
    (h2 : (dl (firstCall st.isVideoRun cfg.flacCli fmt)).filePath = some p)
    (hp : ¬(p = ""))
    (hg : ∀ q, (gcpU q).1 = true → (gcpU q).2 ≠ "")
    (hs : ∀ q, (s3U q).1 = true → (s3U q).2 ≠ "") :
    (processFormat cfg dl gcpU s3U st fmt).sealItems =
        st.sealItems ++ [(extKey (iterExt st.isVideoRun fmt) fmt,
          firstAttemptDisplay cfg.uploadToGcp cfg.uploadToS3 gcpU s3U p)] ∧
      (processFormat cfg dl gcpU s3U st fmt).fractured = st.fractured ∧
      (processFormat cfg dl gcpU s3U st fmt).dlCalls =
        st.dlCalls ++ [firstCall st.isVideoRun cfg.flacCli fmt] ∧
      (processFormat cfg dl gcpU s3U st fmt).isVideoRun = st.isVideoRun ∧
      (processFormat cfg dl gcpU s3U st fmt).uploadCalls =
        st.uploadCalls ++
          ((if cfg.uploadToGcp then [("gcp", p)] else []) ++
            (if cfg.uploadToS3 then [("s3", p)] else [])) ∧
      (processFormat cfg dl gcpU s3U st fmt).firstFilePath =
        (if pyTruthy st.firstFilePath then st.firstFilePath else some p) := by
  have hfin := finishSuccess_components cfg gcpU s3U
    { st with dlCalls := st.dlCalls ++ [firstCall st.isVideoRun cfg.flacCli fmt] }
    fmt (iterExt st.isVideoRun fmt) p hp hg hs
  simp only [processFormat]
  rw [if_pos h1, h2]
  exact hfin

theorem processFormat_video_retry_success (cfg : JobConfig) (dl : DlCall → DlResult)
    (gcpU s3U : String → Bool × String) (st : JobState) (fmt p2 : String)
    (hv : st.isVideoRun = true)
    (h1 : (dl (firstCall true cfg.flacCli fmt)).success = false)
    (hblock : blockedSig ((dl (firstCall true cfg.flacCli fmt)).errorMsg) = true)
    (h2 : (dl (retryCall cfg.audioFormatCfg)).success = true)
    (h3 : (dl (retryCall cfg.audioFormatCfg)).filePath = some p2)
    (hp : ¬(p2 = ""))
    (hg : ∀ q, (gcpU q).1 = true → (gcpU q).2 ≠ "")
    (hs : ∀ q, (s3U q).1 = true → (s3U q).2 ≠ "") :
    (processFormat cfg dl gcpU s3U st fmt).sealItems =
        st.sealItems ++ [(extKey (audioExtMap (pyLower cfg.audioFormatCfg)) fmt,
          firstAttemptDisplay cfg.uploadToGcp cfg.uploadToS3 gcpU s3U p2)] ∧
      (processFormat cfg dl gcpU s3U st fmt).fractured = st.fractured ∧
      (processFormat cfg dl gcpU s3U st fmt).dlCalls =
        st.dlCalls ++ [firstCall true cfg.flacCli fmt, retryCall cfg.audioFormatCfg] ∧
      (processFormat cfg dl gcpU s3U st fmt).isVideoRun = false ∧
      (processFormat cfg dl gcpU s3U st fmt).uploadCalls =
        st.uploadCalls ++
          ((if cfg.uploadToGcp then [("gcp", p2)] else []) ++
            (if cfg.uploadToS3 then [("s3", p2)] else [])) ∧
      (processFormat cfg dl gcpU s3U st fmt).firstFilePath =
        (if pyTruthy st.firstFilePath then st.firstFilePath else some p2) := by
  have hfin := finishSuccess_components cfg gcpU s3U
    { st with
        dlCalls := (st.dlCalls ++ [firstCall true cfg.flacCli fmt]) ++ [retryCall cfg.audioFormatCfg],
        isVideoRun := false }
    fmt (audioExtMap (pyLower cfg.audioFormatCfg)) p2 hp hg hs
  simp only [processFormat, hv]
  rw [if_neg (by simp [h1]), if_pos (by simp [hblock]), if_pos h2, h3]
  obtain ⟨f1, f2, f3, f4, f5, f6⟩ := hfin
  refine ⟨f1, f2, ?_, f4, f5, f6⟩
  rw [f3]
  simp

theorem processFormat_fracture (cfg : JobConfig) (dl : DlCall → DlResult)
    (gcpU s3U : String → Bool × String) (st : JobState) (fmt : String)
    (h1 : (dl (firstCall st.isVideoRun cfg.flacCli fmt)).success = false)
    (hnb : (st.isVideoRun && blockedSig ((dl (firstCall st.isVideoRun cfg.flacCli fmt)).errorMsg)) = false) :
    (processFormat cfg dl gcpU s3U st fmt).sealItems = st.sealItems ∧
      (processFormat cfg dl gcpU s3U st fmt).fractured =
        st.fractured ++ [(extKey (iterExt st.isVideoRun fmt) fmt,
          cfg.norm ((dl (firstCall st.isVideoRun cfg.flacCli fmt)).errorMsg))] ∧
      (processFormat cfg dl gcpU s3U st fmt).dlCalls =
        st.dlCalls ++ [firstCall st.isVideoRun cfg.flacCli fmt] ∧
      (processFormat cfg dl gcpU s3U st fmt).isVideoRun = st.isVideoRun ∧
      (processFormat cfg dl gcpU s3U st fmt).uploadCalls = st.uploadCalls ∧
      (processFormat cfg dl gcpU s3U st fmt).firstFilePath = st.firstFilePath := by
  simp only [processFormat]
  rw [if_neg (by simp [h1]), if_neg (by simp [hnb])]
  exact ⟨rfl, rfl, rfl, rfl, rfl, rfl⟩

theorem processFormat_retry_fracture (cfg : JobConfig) (dl : DlCall → DlResult)
    (gcpU s3U : String → Bool × String) (st : JobState) (fmt : String)
    (hv : st.isVideoRun = true)
    (h1 : (dl (firstCall true cfg.flacCli fmt)).success = false)
    (hblock : blockedSig ((dl (firstCall true cfg.flacCli fmt)).errorMsg) = true)
    (h2 : (dl (retryCall cfg.audioFormatCfg)).success = false) :
    (processFormat cfg dl gcpU s3U st fmt).sealItems = st.sealItems ∧
      (processFormat cfg dl gcpU s3U st fmt).fractured =
        st.fractured ++ [(extKey (iterExt true fmt) fmt,
          cfg.norm ((dl (retryCall cfg.audioFormatCfg)).errorMsg))] ∧
      (processFormat cfg dl gcpU s3U st fmt).dlCalls =
        st.dlCalls ++ [firstCall true cfg.flacCli fmt, retryCall cfg.audioFormatCfg] ∧
      (processFormat cfg dl gcpU s3U st fmt).isVideoRun = true ∧
      (processFormat cfg dl gcpU s3U st fmt).uploadCalls = st.uploadCalls ∧
      (processFormat cfg dl gcpU s3U st fmt).firstFilePath = st.firstFilePath := by
  simp only [processFormat, hv]
  rw [if_neg (by simp [h1]), if_pos (by simp [hblock]), if_neg (by simp [h2])]
  refine ⟨rfl, rfl, ?_, rfl, rfl, rfl⟩
  simp

theorem processFormat_count (cfg : JobConfig) (dl : DlCall → DlResult)
    (gcpU s3U : String → Bool × String)
    (hdl : ∀ c, wfDlResult (dl c))
    (hg : ∀ q, (gcpU q).1 = true → (gcpU q).2 ≠ "")
    (hs : ∀ q, (s3U q).1 = true → (s3U q).2 ≠ "")
    (st : JobState) (fmt : String) :
    (processFormat cfg dl gcpU s3U st fmt).sealItems.length +
      (processFormat cfg dl gcpU s3U st fmt).fractured.length =
    st.sealItems.length + st.fractured.length + 1 := by
  cases h1 : (dl (firstCall st.isVideoRun cfg.flacCli fmt)).success with
  | true =>
    obtain ⟨p, hfp, hpne⟩ := (hdl (firstCall st.isVideoRun cfg.flacCli fmt)).1 h1
    obtain ⟨s1, s2, -, -, -, -⟩ :=
      processFormat_success cfg dl gcpU s3U st fmt p h1 hfp hpne hg hs
    rw [s1, s2]
    simp only [List.length_append, List.length_cons, List.length_nil]
    omega
  | false =>
    cases hb : (st.isVideoRun &&
        blockedSig ((dl (firstCall st.isVideoRun cfg.flacCli fmt)).errorMsg)) with
    | false =>
      obtain ⟨s1, s2, -, -, -, -⟩ := processFormat_fracture cfg dl gcpU s3U st fmt h1 hb
      rw [s1, s2]
      simp only [List.length_append, List.length_cons, List.length_nil]
      omega
    | true =>
      have hv : st.isVideoRun = true := by
        cases hiv : st.isVideoRun
        · rw [hiv] at hb; simp at hb
        · rfl
      rw [hv] at h1 hb
      cases h2 : (dl (retryCall cfg.audioFormatCfg)).success with
      | true =>
        obtain ⟨p2, hfp2, hpne2⟩ := (hdl (retryCall cfg.audioFormatCfg)).1 h2
        obtain ⟨s1, s2, -, -, -, -⟩ :=
          processFormat_video_retry_success cfg dl gcpU s3U st fmt p2 hv h1
            (by simpa using hb) h2 hfp2 hpne2 hg hs
        rw [s1, s2]
        simp only [List.length_append, List.length_cons, List.length_nil]
        omega
      | false =>
        obtain ⟨s1, s2, -, -, -, -⟩ :=
          processFormat_retry_fracture cfg dl gcpU s3U st fmt hv h1 (by simpa using hb) h2
        rw [s1, s2]
        simp only [List.length_append, List.length_cons, List.length_nil]
        omega

theorem foldl_processFormat_count (cfg : JobConfig) (dl : DlCall → DlResult)
    (gcpU s3U : String → Bool × String)
    (hdl : ∀ c, wfDlResult (dl c))
    (hg : ∀ q, (gcpU q).1 = true → (gcpU q).2 ≠ "")
    (hs : ∀ q, (s3U q).1 = true → (s3U q).2 ≠ "")
    (formats : List String) :
    ∀ st : JobState,
      (formats.foldl (processFormat cfg dl gcpU s3U) st).sealItems.length +
        (formats.foldl (processFormat cfg dl gcpU s3U) st).fractured.length =
      st.sealItems.length + st.fractured.length + formats.length := by
  induction formats with
  | nil => intro st; simp
  | cons fmt rest ih =>
    intro st
    rw [List.foldl_cons, ih (processFormat cfg dl gcpU s3U st fmt)]
    have hstep := processFormat_count cfg dl gcpU s3U hdl hg hs st fmt
    simp only [List.length_cons]
    omega

theorem formatsToProduce_ne_nil (vff : Option String) (flacF : Bool) (aff : Option String)
    (vFmtCfg : String) (vEnabled aEnabled : List String) (aFmtCfg : String) :
    formatsToProduce vff flacF aff vFmtCfg vEnabled aEnabled aFmtCfg ≠ [] := by
  unfold formatsToProduce
  repeat' split
  all_goals try simp_all
  all_goals repeat' split
  all_goals simp_all

/-! ## Claim C4 -/

/-- Claim C4: for every single-job run (formats resolved by the format
resolver, downloader results well-formed, uploader locations non-empty), the
run exits with code 0 exactly when at least one seal item was recorded; in
particular a run with zero seal items exits non-zero, and a run with a seal
item exits zero regardless of how many formats fractured. -/
theorem C4_partial_success_exit
    (vff aff : Option String) (flacF : Bool) (vFmtCfg : String)
    (vEnabled aEnabled : List String) (aFmtCfg : String)
    (nrm : Option String → String) (utg uts : Bool)
    (dl : DlCall → DlResult) (gcpU s3U : String → Bool × String)
    (hdl : ∀ c, wfDlResult (dl c))
    (hg : ∀ q, (gcpU q).1 = true → (gcpU q).2 ≠ "")
    (hs : ∀ q, (s3U q).1 = true → (s3U q).2 ≠ "") :
    distillExitCode (runDistillJob ⟨aFmtCfg, flacF, utg, uts, nrm⟩ dl gcpU s3U vff
        (formatsToProduce vff flacF aff vFmtCfg vEnabled aEnabled aFmtCfg)) = 0 ↔
      (runDistillJob ⟨aFmtCfg, flacF, utg, uts, nrm⟩ dl gcpU s3U vff
        (formatsToProduce vff flacF aff vFmtCfg vEnabled aEnabled aFmtCfg)).sealItems ≠ [] := by
  have hlen := foldl_processFormat_count ⟨aFmtCfg, flacF, utg, uts, nrm⟩ dl gcpU s3U hdl hg hs
    (formatsToProduce vff flacF aff vFmtCfg vEnabled aEnabled aFmtCfg) (initJobState vff)
  have hne := formatsToProduce_ne_nil vff flacF aff vFmtCfg vEnabled aEnabled aFmtCfg
  have hfl : 1 ≤ (formatsToProduce vff flacF aff vFmtCfg vEnabled aEnabled aFmtCfg).length :=
    List.length_pos.mpr hne
  unfold runDistillJob at *
  unfold distillExitCode
  split
  · rename_i hcond
    simp [hcond.2]
  · rename_i hcond
    rw [not_and_or] at hcond
    have hseal : (List.foldl
        (processFormat ⟨aFmtCfg, flacF, utg, uts, nrm⟩ dl gcpU s3U)
        (initJobState vff)
        (formatsToProduce vff flacF aff vFmtCfg vEnabled aEnabled aFmtCfg)).sealItems ≠ [] := by
      rcases hcond with hf | hs2
      · intro hseal0
        have hf0 := not_not.mp hf
        rw [hseal0, hf0] at hlen
        simp [initJobState] at hlen
        omega
      · exact hs2
    simp [hseal]

/-- Claim C4 witness: a job over the default single mp3 format whose download
fails exits with code 1 and records no seal item. -/
theorem C4_witness :
    distillExitCode (runDistillJob ⟨"mp3", false, false, false, normalize_fracture_cause⟩
        dlAllFail uploaderFails uploaderFails none
        (formatsToProduce none false none "" [] [] "mp3")) = 0 ↔
      (runDistillJob ⟨"mp3", false, false, false, normalize_fracture_cause⟩
        dlAllFail uploaderFails uploaderFails none
        (formatsToProduce none false none "" [] [] "mp3")).sealItems ≠ [] :=
  C4_partial_success_exit none none false "" [] [] "mp3" normalize_fracture_cause false false
    dlAllFail uploaderFails uploaderFails
    (fun _ => ⟨fun h => Bool.noConfusion h, fun _ => rfl⟩)
    (fun _ h => Bool.noConfusion h)
    (fun _ h => Bool.noConfusion h)

/-! ## Helper lemmas: extension keys -/

theorem audioExtMap_cases (a : String) :
    audioExtMap a = ".aac" ∨ audioExtMap a = ".m4a" ∨ audioExtMap a = ".opus" ∨
      audioExtMap a = ".ogg" ∨ audioExtMap a = ".wav" ∨ audioExtMap a = ".mp3" := by
  unfold audioExtMap
  repeat' split
  all_goals simp

theorem videoExtMap_cases (v : String) :
    videoExtMap v = ".mp4" ∨ videoExtMap v = ".mkv" ∨ videoExtMap v = ".webm" ∨
      videoExtMap v = ".mov" ∨ videoExtMap v = ".avi" ∨ videoExtMap v = ".flv" ∨
      videoExtMap v = ".gif" := by
  unfold videoExtMap
  repeat' split
  all_goals simp

theorem audioExtMap_lstrip_ne (a : String) : ¬(lstripDot (audioExtMap a) = "") := by
  rcases audioExtMap_cases a with h | h | h | h | h | h <;> rw [h] <;> decide

theorem videoExtMap_lstrip_ne (v : String) : ¬(lstripDot (videoExtMap v) = "") := by
  rcases videoExtMap_cases v with h | h | h | h | h | h | h <;> rw [h] <;> decide

theorem extKey_of_stripped_ne (ext fmt : String) (h : ¬(lstripDot ext = "")) :
    extKey ext fmt = lstripDot ext := by
  unfold extKey
  simp [h]

/-! ## Claim C5 -/

/-- Claim C5: for a video-format iteration whose download fails with a
provider-blocked signature (403, video data or forbidden in the message) and
whose audio-only retry succeeds, exactly one retry is performed - an
audio-only call carrying the persisted default audio format - the outcome is
recorded as a seal item (success), its effective extension key is the audio
extension that distill maps the persisted default audio format to, and that
key differs from the requested video extension key whenever the two mapped
extensions differ. -/
theorem C5_video_audio_fallback (cfg : JobConfig) (dl : DlCall → DlResult)
    (gcpU s3U : String → Bool × String) (st : JobState) (fmt p2 : String)
    (hv : st.isVideoRun = true)
    (h1 : (dl (firstCall true cfg.flacCli fmt)).success = false)
    (hblock : blockedSig ((dl (firstCall true cfg.flacCli fmt)).errorMsg) = true)
    (h2 : (dl (retryCall cfg.audioFormatCfg)).success = true)
    (h3 : (dl (retryCall cfg.audioFormatCfg)).filePath = some p2)
    (hp : ¬(p2 = ""))
    (hg : ∀ q, (gcpU q).1 = true → (gcpU q).2 ≠ "")
    (hs : ∀ q, (s3U q).1 = true → (s3U q).2 ≠ "") :
    (processFormat cfg dl gcpU s3U st fmt).dlCalls =
        st.dlCalls ++ [firstCall true cfg.flacCli fmt, retryCall cfg.audioFormatCfg] ∧
      (∃ loc, (processFormat cfg dl gcpU s3U st fmt).sealItems =
        st.sealItems ++ [(extKey (audioExtMap (pyLower cfg.audioFormatCfg)) fmt, loc)]) ∧
      (processFormat cfg dl gcpU s3U st fmt).fractured = st.fractured ∧
      (audioExtMap (pyLower cfg.audioFormatCfg) ≠ videoExtMap (pyLower fmt) →
        extKey (audioExtMap (pyLower cfg.audioFormatCfg)) fmt ≠
          extKey (videoExtMap (pyLower fmt)) fmt) := by
  obtain ⟨s1, s2, s3, -, -, -⟩ :=
    processFormat_video_retry_success cfg dl gcpU s3U st fmt p2 hv h1 hblock h2 h3 hp hg hs
  refine ⟨s3, ⟨_, s1⟩, s2, ?_⟩
  intro hdiff
  rw [extKey_of_stripped_ne _ fmt (audioExtMap_lstrip_ne _),
    extKey_of_stripped_ne _ fmt (videoExtMap_lstrip_ne _)]
  intro hstr
  apply hdiff
  rcases audioExtMap_cases (pyLower cfg.audioFormatCfg) with h | h | h | h | h | h <;>
    rcases videoExtMap_cases (pyLower fmt) with h2x | h2x | h2x | h2x | h2x | h2x | h2x <;>
    rw [h, h2x] <;> rw [h, h2x] at hstr <;> first | rfl | exact absurd hstr (by decide)

/-- Claim C5 witness: a mp4 video job blocked with HTTP 403 whose mp3 audio
retry succeeds records exactly one retry and a seal item keyed mp3, which
differs from the video key mp4. -/
theorem C5_witness :
    (processFormat ⟨"mp3", false, false, false, normalize_fracture_cause⟩
        dlVideoBlocked uploaderFails uploaderFails (initJobState (some "mp4")) "mp4").dlCalls =
        (initJobState (some "mp4")).dlCalls ++
          [firstCall true false "mp4", retryCall "mp3"] ∧
      extKey (audioExtMap (pyLower "mp3")) "mp4" ≠ extKey (videoExtMap (pyLower "mp4")) "mp4" :=
  ⟨(C5_video_audio_fallback ⟨"mp3", false, false, false, normalize_fracture_cause⟩
      dlVideoBlocked uploaderFails uploaderFails (initJobState (some "mp4")) "mp4"
      "/downloads/track.mp3" rfl rfl (by decide) rfl rfl (by decide)
      (fun _ h => Bool.noConfusion h) (fun _ h => Bool.noConfusion h)).1,
   (C5_video_audio_fallback ⟨"mp3", false, false, false, normalize_fracture_cause⟩
      dlVideoBlocked uploaderFails uploaderFails (initJobState (some "mp4")) "mp4"
      "/downloads/track.mp3" rfl rfl (by decide) rfl rfl (by decide)
      (fun _ h => Bool.noConfusion h) (fun _ h => Bool.noConfusion h)).2.2.2 (by decide)⟩

/-! ## Claim C7 -/

/-- Claim C7 counterexample: with both remotes resolved, a failing GCP upload
followed by a succeeding S3 upload records the local artifact path as the
displayed location, not the successful remote location s3://bucket/song.mp3,
refuting the claimed first-successful-remote display rule. -/
theorem C7_counterexample :
    (processFormat ⟨"mp3", false, true, true, normalize_fracture_cause⟩
        dlAlwaysOk gcpFails s3Ok (initJobState none) "mp3").sealItems =
        [("mp3", "/downloads/song.mp3")] ∧
      s3Ok "/downloads/song.mp3" = (true, "s3://bucket/song.mp3") ∧
      "/downloads/song.mp3" ≠ "s3://bucket/song.mp3" := by
  refine ⟨rfl, rfl, by decide⟩

/-- Claim C7 (amended): for a format whose download succeeded with a
non-empty artifact path, a seal item is always recorded and no fracture is
added - even when every attempted upload fails; every resolved non-local
destination is attempted, in the fixed order gcp then s3, independently of
any upload outcome (no short-circuit); and the displayed location is
determined by the first attempted remote upload - its location when it
succeeded, the local artifact path when it failed - and is the local path
when no remote was requested.  A successful later remote after a failed
first remote is not displayed. -/
theorem C7_upload_dispatch_amended (cfg : JobConfig) (dl : DlCall → DlResult)
    (gcpU s3U : String → Bool × String) (st : JobState) (fmt p : String)
    (h1 : (dl (firstCall st.isVideoRun cfg.flacCli fmt)).success = true)
    (h2 : (dl (firstCall st.isVideoRun cfg.flacCli fmt)).filePath = some p)
    (hp : ¬(p = ""))
    (hg : ∀ q, (gcpU q).1 = true → (gcpU q).2 ≠ "")
    (hs : ∀ q, (s3U q).1 = true → (s3U q).2 ≠ "") :
    (processFormat cfg dl gcpU s3U st fmt).sealItems =
        st.sealItems ++ [(extKey (iterExt st.isVideoRun fmt) fmt,
          firstAttemptDisplay cfg.uploadToGcp cfg.uploadToS3 gcpU s3U p)] ∧
      (processFormat cfg dl gcpU s3U st fmt).fractured = st.fractured ∧
      (processFormat cfg dl gcpU s3U st fmt).uploadCalls =
        st.uploadCalls ++
          ((if cfg.uploadToGcp then [("gcp", p)] else []) ++
            (if cfg.uploadToS3 then [("s3", p)] else [])) := by
  obtain ⟨s1, s2, -, -, s5, -⟩ :=
    processFormat_success cfg dl gcpU s3U st fmt p h1 h2 hp hg hs
  exact ⟨s1, s2, s5⟩

/-- Claim C7 witness: the counterexample scenario instantiates the amended
claim - the seal item is recorded with the local path (GCP was attempted
first and failed) and both remotes were attempted in order. -/
theorem C7_witness :
    (processFormat ⟨"mp3", false, true, true, normalize_fracture_cause⟩
        dlAlwaysOk gcpFails s3Ok (initJobState none) "mp3").sealItems =
        (initJobState none).sealItems ++
          [(extKey (iterExt (initJobState none).isVideoRun "mp3") "mp3",
            firstAttemptDisplay true true gcpFails s3Ok "/downloads/song.mp3")] ∧
      (processFormat ⟨"mp3", false, true, true, normalize_fracture_cause⟩
        dlAlwaysOk gcpFails s3Ok (initJobState none) "mp3").fractured =
        (initJobState none).fractured ∧
      (processFormat ⟨"mp3", false, true, true, normalize_fracture_cause⟩
        dlAlwaysOk gcpFails s3Ok (initJobState none) "mp3").uploadCalls =
        (initJobState none).uploadCalls ++
          ((if true then [("gcp", "/downloads/song.mp3")] else []) ++
            (if true then [("s3", "/downloads/song.mp3")] else [])) :=
  C7_upload_dispatch_amended ⟨"mp3", false, true, true, normalize_fracture_cause⟩
    dlAlwaysOk gcpFails s3Ok (initJobState none) "mp3" "/downloads/song.mp3"
    rfl rfl (by decide) (fun _ h => Bool.noConfusion h)
    (fun _ _ => show ("s3://bucket/song.mp3" : String) ≠ "" by decide)

/-! ## Helper lemmas: the normalizer does not influence control flow -/

theorem dispatchUploads_norm (a : String) (fc ug us : Bool) (f g : Option String → String)
    (gU sU : String → Bool × String) (fp : Option String) :
    dispatchUploads ⟨a, fc, ug, us, f⟩ gU sU fp =
      dispatchUploads ⟨a, fc, ug, us, g⟩ gU sU fp := rfl

theorem finishSuccess_norm_shape (a : String) (fc ug us : Bool)
    (f g : Option String → String) (gU sU : String → Bool × String)
    (st1 st2 : JobState) (fmt ext : String) (fp : Option String)
    (h : SameShape st1 st2) :
    SameShape (finishSuccess ⟨a, fc, ug, us, f⟩ gU sU st1 fmt ext fp)
      (finishSuccess ⟨a, fc, ug, us, g⟩ gU sU st2 fmt ext fp) := by
  obtain ⟨h1, h2, h3, h4, h5, h6⟩ := h
  simp only [finishSuccess]
  rw [dispatchUploads_norm a fc ug us f g gU sU fp, h3]
  cases hc : (!(pyTruthy st2.firstFilePath) && pyTruthy fp) <;>
    cases dd : (dispatchUploads ⟨a, fc, ug, us, g⟩ gU sU fp).1 <;>
    simp_all [SameShape]
  all_goals split <;> simp_all

theorem processFormat_norm_shape (a : String) (fc ug us : Bool)
    (f g : Option String → String) (dl : DlCall → DlResult)
    (gU sU : String → Bool × String) (fmt : String) (st1 st2 : JobState)
    (h : SameShape st1 st2) :
    SameShape (processFormat ⟨a, fc, ug, us, f⟩ dl gU sU st1 fmt)
      (processFormat ⟨a, fc, ug, us, g⟩ dl gU sU st2 fmt) := by
  obtain ⟨h1, h2, h3, h4, h5, h6⟩ := h
  simp only [processFormat]
  rw [h4, h5]
  by_cases hsucc : ((dl (firstCall st2.isVideoRun fc fmt)).success = true)
  · rw [if_pos hsucc, if_pos hsucc]
    exact finishSuccess_norm_shape a fc ug us f g gU sU _ _ fmt _ _
      ⟨h1, h2, h3, rfl, rfl, h6⟩
  · rw [if_neg hsucc, if_neg hsucc]
    by_cases hbl : ((st2.isVideoRun &&
        blockedSig ((dl (firstCall st2.isVideoRun fc fmt)).errorMsg)) = true)
    · rw [if_pos hbl, if_pos hbl]
      by_cases hr2 : ((dl (retryCall a)).success = true)
      · rw [if_pos hr2, if_pos hr2]
        exact finishSuccess_norm_shape a fc ug us f g gU sU _ _ fmt _ _
          ⟨h1, h2, h3, rfl, rfl, h6⟩
      · rw [if_neg hr2, if_neg hr2]
        exact ⟨h1, by simp [h2], h3, rfl, rfl, h6⟩
    · rw [if_neg hbl, if_neg hbl]
      exact ⟨h1, by simp [h2], h3, rfl, rfl, h6⟩

theorem foldl_norm_shape (a : String) (fc ug us : Bool) (f g : Option String → String)
    (dl : DlCall → DlResult) (gU sU : String → Bool × String) (formats : List String) :
    ∀ st1 st2 : JobState, SameShape st1 st2 →
      SameShape (formats.foldl (processFormat ⟨a, fc, ug, us, f⟩ dl gU sU) st1)
        (formats.foldl (processFormat ⟨a, fc, ug, us, g⟩ dl gU sU) st2) := by
  induction formats with
  | nil => intro st1 st2 h; simpa using h
  | cons fmt rest ih =>
    intro st1 st2 h
    rw [List.foldl_cons, List.foldl_cons]
    exact ih _ _ (processFormat_norm_shape a fc ug us f g dl gU sU fmt st1 st2 h)

theorem distillExitCode_shape (st1 st2 : JobState) (h : SameShape st1 st2) :
    distillExitCode st1 = distillExitCode st2 := by
  obtain ⟨h1, h2, -, -, -, -⟩ := h
  have hfr : st1.fractured = [] ↔ st2.fractured = [] := by
    rw [← List.map_eq_nil_iff (f := Prod.fst), ← List.map_eq_nil_iff (f := Prod.fst), h2]
  unfold distillExitCode
  exact if_congr (by rw [h1]; exact and_congr_left (fun _ => not_congr hfr)) rfl rfl

/-! ## Claim C6 -/

/-- Claim C6 counterexample: a raw message of the shape Download failed:
followed by otherwise unrecognized text is normalized to the truncated
residual text itself, which lies outside the closed set of causes, refuting
the closed-codomain part of the claim. -/
theorem C6_counterexample :
    normalize_fracture_cause (some "Download failed: mystery glitch") = "mystery glitch" ∧
      "mystery glitch" ∉ closedCauses := by
  exact ⟨by decide, by decide⟩

/-- Claim C6 (amended): cause normalization returns a value from the closed
set of causes except for messages containing download failed, whose residual
text is passed through truncated; and the normalizer never influences control
flow: two runs of the per-format loop that differ only in the normalization
function produce identical seal items, identical fracture keys, identical
downloader and uploader call traces, and identical exit codes - only the
displayed fracture causes may differ. -/
theorem C6_cause_normalization_amended :
    (∀ msg, normalize_fracture_cause msg ∈ closedCauses ∨
        pyIn "download failed" (pyLower (msg.getD "")) = true) ∧
    (∀ (a : String) (fc ug us : Bool) (f g : Option String → String)
        (dl : DlCall → DlResult) (gU sU : String → Bool × String)
        (vff : Option String) (formats : List String),
      SameShape (runDistillJob ⟨a, fc, ug, us, f⟩ dl gU sU vff formats)
        (runDistillJob ⟨a, fc, ug, us, g⟩ dl gU sU vff formats)) ∧
    (∀ (a : String) (fc ug us : Bool) (f g : Option String → String)
        (dl : DlCall → DlResult) (gU sU : String → Bool × String)
        (vff : Option String) (formats : List String),
      distillExitCode (runDistillJob ⟨a, fc, ug, us, f⟩ dl gU sU vff formats) =
        distillExitCode (runDistillJob ⟨a, fc, ug, us, g⟩ dl gU sU vff formats)) := by
  have hshape : ∀ (a : String) (fc ug us : Bool) (f g : Option String → String)
      (dl : DlCall → DlResult) (gU sU : String → Bool × String)
      (vff : Option String) (formats : List String),
      SameShape (runDistillJob ⟨a, fc, ug, us, f⟩ dl gU sU vff formats)
        (runDistillJob ⟨a, fc, ug, us, g⟩ dl gU sU vff formats) := by
    intro a fc ug us f g dl gU sU vff formats
    unfold runDistillJob
    exact foldl_norm_shape a fc ug us f g dl gU sU formats _ _
      ⟨rfl, rfl, rfl, rfl, rfl, rfl⟩
  refine ⟨?_, hshape, ?_⟩
  · intro msg
    cases msg with
    | none => exact Or.inl (by decide)
    | some s =>
      simp only [normalize_fracture_cause]
      split
      · exact Or.inl (by decide)
      · split
        · split
          · exact Or.inl (by decide)
          · exact Or.inl (by decide)
        · split
          · exact Or.inl (by decide)
          · split
            · exact Or.inl (by decide)
            · split
              · exact Or.inl (by decide)
              · split
                · rename_i hdf
                  split
                  · exact Or.inl (by decide)
                  · split
                    · exact Or.inr hdf
                    · exact Or.inl (by decide)
                · exact Or.inl (by decide)
  · intro a fc ug us f g dl gU sU vff formats
    exact distillExitCode_shape _ _ (hshape a fc ug us f g dl gU sU vff formats)

end Alchemux
